import Mathlib

/-!
Shallow embedding of the `ev_bot` travel-suggestion pipeline
(agent orchestration, flight/hotel agent tools, Amadeus client retry
policy, Telegram presentation/delivery) together with theorems that
settle the specification claims against the code.

Python sources embedded here:
* `ev_bot/agent_orchestration.py` — `hotel_agent_node`, `merge_output_node`
* `ev_bot/flight_agent.py`        — `FlightAgent._search_flight_inspiration`,
                                    the Markdown fence stripping of `run_agent`
* `ev_bot/hotel_agent.py`         — `HotelAgent._search_hotel_offers`,
                                    the fence stripping of `run_agent`
* `ev_bot/ai_agent.py`            — `AiAgent._search_hotel_offers`
* `ev_bot/amadeus_client.py`      — the tenacity retry policy
                                    (`stop_after_attempt(settings.max_retries)`)
* `ev_bot/telegram_sender.py`     — `TRANSLATIONS`, `get_translations`,
                                    `format_idea_caption`, `send_to_telegram`

External effects (the Amadeus provider, the LLM, the Telegram bot) are
modelled as explicit function parameters ("oracles"); Python exceptions
are modelled with `Except` / `Option`; Python falsiness of `None` and of
the empty string is modelled explicitly where the source relies on it.
-/

namespace EvBot

/-! ## Data model (pydantic schemas of `flight_agent.py` / `hotel_agent.py`)

Dates are carried as their ISO display strings: the orchestration nodes
only thread them through into prompts and records, never compute on them.
-/

/-- `flight_agent.TravelSummary` (the fields read by the orchestration). -/
structure TravelSummaryE where
  flight_number : Option String
  flight_price : String
  starting_point : String
  starting_point_code : String
  destination : String
  destination_code : String
  travel_dates : String
  travel_start_date : String
  travel_end_date : String
  booking_link : String
  deriving Repr, DecidableEq

/-- `flight_agent.TravelIdea`. -/
structure TravelIdeaE where
  header : String
  motivation : String
  destination_description : String
  travel_summary : TravelSummaryE
  image_url : Option String
  deriving Repr, DecidableEq

/-- `hotel_agent.HotelSummary`. -/
structure HotelSummaryE where
  hotel_name : String
  address : String
  rating : Option String
  total_price : String
  check_in_date : String
  check_out_date : String
  booking_link : String
  deriving Repr, DecidableEq

/-- `hotel_agent.HotelSearchResult`. -/
structure HotelSearchResultE where
  city_name : String
  city_code : String
  hotels : List HotelSummaryE
  deriving Repr, DecidableEq

/-- One record of `GraphState.hotel_offers` as built by `hotel_agent_node`:
`{"destination_code": city_code, "hotels": hotels}`. -/
structure HotelOfferRec where
  destination_code : String
  hotels : List HotelSummaryE
  deriving Repr, DecidableEq

/-- One record of `GraphState.combined_suggestions` as built by
`merge_output_node`: `{"travel_idea": idea, "hotels": hotels}`. -/
structure CombinedSuggestionE where
  travel_idea : TravelIdeaE
  hotels : List HotelSummaryE
  deriving Repr, DecidableEq

/-! ## Orchestration nodes (`agent_orchestration.py`) -/

/-- The per-destination prompt built inside `hotel_agent_node`:
`f"Find 3 good hotels in {city_code} from {check_in} to {check_out}"`. -/
def hotelPrompt (idea : TravelIdeaE) : String :=
  "Find 3 good hotels in " ++ idea.travel_summary.destination_code ++
    " from " ++ idea.travel_summary.travel_start_date ++
    " to " ++ idea.travel_summary.travel_end_date

/-- The body of the `for idea in state.flight_ideas` loop of
`hotel_agent_node`: one Hotel Agent invocation and the record appended to
`hotel_results`.  The invocation `hotel_agent.run_agent(hotel_prompt)` is
the oracle `agentRun`; `Except.error` models the `except Exception` branch,
which appends `{"destination_code": city_code, "hotels": []}` and lets the
loop continue with the next destination. -/
def hotelNodeStep (agentRun : String → Except String HotelSearchResultE)
    (idea : TravelIdeaE) : HotelOfferRec :=
  match agentRun (hotelPrompt idea) with
  | .ok result =>
    { destination_code := idea.travel_summary.destination_code
      hotels := result.hotels }
  | .error _ =>
    { destination_code := idea.travel_summary.destination_code
      hotels := [] }

/-- `agent_orchestration.hotel_agent_node` (lines 31–71): the loop over all
flight ideas.  The function is total: no error escapes the node. -/
def hotel_agent_node (agentRun : String → Except String HotelSearchResultE)
    (flight_ideas : List TravelIdeaE) : List HotelOfferRec :=
  flight_ideas.map (hotelNodeStep agentRun)

/-- `agent_orchestration.merge_output_node` (lines 75–92).  The Python
`next((h["hotels"] for h in state.hotel_offers if h["destination_code"] == dest_code), [])`
is the first matching record's hotels, `[]` when none matches. -/
def merge_output_node (flight_ideas : List TravelIdeaE)
    (hotel_offers : List HotelOfferRec) : List CombinedSuggestionE :=
  flight_ideas.map (fun idea =>
    let dest_code := idea.travel_summary.destination_code
    let hotels :=
      ((hotel_offers.find? (fun h => h.destination_code == dest_code)).map
        (fun h => h.hotels)).getD []
    { travel_idea := idea, hotels := hotels })

/-- Specification-side description of the merge lookup: the hotels of the
first record whose `destination_code` matches, empty when none matches.
Stated by primitive recursion, independently of `List.find?`. -/
def firstMatchHotels : List HotelOfferRec → String → List HotelSummaryE
  | [], _ => []
  | h :: t, d => if h.destination_code = d then h.hotels else firstMatchHotels t d

/-! ## Markdown fence stripping (`FlightAgent.run_agent` / `HotelAgent.run_agent`)

The raw LLM output string is modelled as a `List Char`.  The Python string
methods used by the source (`.strip()`, `.startswith`, `.removeprefix`,
`.removesuffix`) are modelled below with Python's semantics. -/

/-- The characters removed by Python's `str.strip()` with no argument. -/
def pyWs (c : Char) : Bool :=
  c = ' ' || c = '\t' || c = '\n' || c = '\r' || c = '\x0b' || c = '\x0c'

/-- Removal of trailing Python whitespace. -/
def dropTrail (l : List Char) : List Char :=
  (l.reverse.dropWhile pyWs).reverse

/-- Python `str.strip()`: remove leading and trailing whitespace. -/
def pyStrip (l : List Char) : List Char :=
  dropTrail (l.dropWhile pyWs)

/-- Python `str.removeprefix(p)`: drop `p` from the front when the string
starts with `p`, otherwise the string unchanged. -/
def dropPre (p l : List Char) : List Char :=
  if p.isPrefixOf l then l.drop p.length else l

/-- Python `str.removesuffix(suf)`: drop `suf` from the end when the string
ends with `suf`, otherwise the string unchanged (defined via `dropPre` on
the reversed string, which has exactly that behaviour). -/
def dropSuf (l suf : List Char) : List Char :=
  (dropPre suf.reverse l.reverse).reverse

/-- The `"```json"` fence opener tested first by `run_agent`. -/
def fenceJson : List Char := "```json".data

/-- The plain `"```"` fence marker. -/
def fence3 : List Char := "```".data

/-- The post-processing applied by `FlightAgent.run_agent` (lines 159–176)
and identically by `HotelAgent.run_agent` (lines 114–130) to a string LLM
output before JSON validation:

```
raw_output = str(result.output).strip()
if raw_output.startswith("```json"):
    raw_output = raw_output.removeprefix("```json").removesuffix("```").strip()
elif raw_output.startswith("```"):
    raw_output = raw_output.removeprefix("```").removesuffix("```").strip()
```
-/
def stripFence (s : List Char) : List Char :=
  let raw := pyStrip s
  if fenceJson.isPrefixOf raw then
    pyStrip (dropSuf (dropPre fenceJson raw) fence3)
  else if fence3.isPrefixOf raw then
    pyStrip (dropSuf (dropPre fence3 raw) fence3)
  else raw

/-- An LLM output wrapped in the ```` ```json ```` Markdown fence variant. -/
def wrapJson (s : List Char) : List Char :=
  "```json\n".data ++ (s ++ "\n```".data)

/-- An LLM output wrapped in the plain ` ``` ` Markdown fence variant. -/
def wrapPlain (s : List Char) : List Char :=
  "```\n".data ++ (s ++ "\n```".data)

/-! ## Flight inspiration search with sample fallback
(`FlightAgent._search_flight_inspiration`, lines 105–139) -/

/-- An Amadeus `ResponseError` (status code and body). -/
structure ResponseErrorE where
  status : Nat
  body : String
  deriving Repr, DecidableEq

/-- The parsed sample fixture `debug_samples/inspiration_API_sample.json`:
`sample.get("data", [])` reads the optional `"data"` key. -/
structure InspirationSampleE (α : Type) where
  data : Option (List α)

/-- `FlightAgent._search_flight_inspiration`.  `live` is the outcome of the
Amadeus call `shopping.flight_destinations.get(...)` (its `ResponseError`
is caught and logged — the `raise` is commented out — and control falls
through to the fallback); `loadSample` is the outcome of opening and
JSON-decoding the bundled fixture.  A fallback load failure raises
`RuntimeError("Flight search failed and sample data could not be loaded.")`. -/
def search_flight_inspiration {α : Type}
    (live : Except ResponseErrorE (List α))
    (loadSample : Except String (InspirationSampleE α)) :
    Except String (List α) :=
  match live with
  | .ok d => .ok d
  | .error _ =>
    match loadSample with
    | .ok sample => .ok (sample.data.getD [])
    | .error _ => .error "Flight search failed and sample data could not be loaded."

/-! ## Hotel-offer search tools

`HotelAgent._search_hotel_offers` (hotel_agent.py lines 84–112) runs
`for attempt in range(1, MAX_RETRIES + 1)` with `MAX_RETRIES = 3`, but both
arms of the loop body return on the first iteration (the `try` arm returns
`result.data`, the `except ResponseError` arm returns `None`), so later
iterations are unreachable and `DELAY_SECONDS` is never used.  `provider`
models the combined effect of the two Amadeus calls made in one iteration
(`reference_data.locations.hotels.by_city.get` + `shopping.hotel_offers_search.get`),
indexed by the attempt number; the result pairs the returned value with the
number of provider attempts actually made. -/
def haLoop {α : Type} (provider : Nat → Except ResponseErrorE α) :
    List Nat → Nat → Option α × Nat
  | [], calls => (none, calls)
  | attempt :: _rest, calls =>
    match provider attempt with
    | .ok d => (some d, calls + 1)
    | .error _ => (none, calls + 1)

/-- `HotelAgent._search_hotel_offers`: the retry loop over attempts
`range(1, 4)` starting with zero provider calls made. -/
def HotelAgent_search_hotel_offers {α : Type}
    (provider : Nat → Except ResponseErrorE α) : Option α × Nat :=
  haLoop provider [1, 2, 3] 0

/-! ### `AiAgent._search_hotel_offers` (ai_agent.py lines 134–185) -/

/-- The `price` object of a raw hotel offer. -/
structure RawPriceE where
  total : Option String
  currency : Option String
  deriving Repr, DecidableEq

/-- One raw offer inside a hotel record of `hotel_offers_search` data. -/
structure RawOfferE where
  price : Option RawPriceE
  checkInDate : Option String
  checkOutDate : Option String
  deriving Repr, DecidableEq

/-- One raw hotel record of `hotel_offers_search` data:
`hotel.get('hotel', {}).get('name', 'Unknown')` and `hotel.get('offers')`. -/
structure RawHotelE where
  hotel_name : Option String
  offers : List RawOfferE
  deriving Repr, DecidableEq

/-- One summarized offer dict built by `AiAgent._search_hotel_offers`. -/
structure OfferSummaryE where
  name : String
  price : String
  currency : String
  checkIn : Option String
  checkOut : Option String
  deriving Repr, DecidableEq

/-- The body of the `for hotel in result.data[:3]` loop: at most one
summary per record.  `offer = hotel['offers'][0] if hotel.get('offers') else None`
(an empty list is falsy) and the guard
`if offer and offer.get('price', {}).get('total'):` (a missing or empty
total string is falsy). -/
def summarizeHotel (hotel : RawHotelE) : Option OfferSummaryE :=
  match hotel.offers.head? with
  | none => none
  | some offer =>
    match offer.price.bind (fun p => p.total) with
    | none => none
    | some t =>
      if t = "" then none
      else some {
        name := hotel.hotel_name.getD "Unknown"
        price := t
        currency := (offer.price.bind (fun p => p.currency)).getD "EUR"
        checkIn := offer.checkInDate
        checkOut := offer.checkOutDate }

/-- `AiAgent._search_hotel_offers`: `byCity` is the
`reference_data.locations.hotels.by_city.get` call yielding hotel ids,
capped to the first 20 (`hotels.data[:20]`); `offersSearch` is the
`shopping.hotel_offers_search.get` call on those ids.  A `ResponseError`
from either call is trapped by the single `try` and yields `None`, as does
an empty summary list (`return summarized if summarized else None`). -/
def AiAgent_search_hotel_offers
    (byCity : Except ResponseErrorE (List String))
    (offersSearch : List String → Except ResponseErrorE (List RawHotelE)) :
    Option (List OfferSummaryE) :=
  match byCity with
  | .error _ => none
  | .ok hotels =>
    match offersSearch (hotels.take 20) with
    | .error _ => none
    | .ok data =>
      let summarized := (data.take 3).filterMap summarizeHotel
      if summarized.isEmpty then none else some summarized

/-! ## AmadeusClient retry policy (`amadeus_client.py`)

Each API method of `AmadeusClient` is decorated with
`@retry(stop=stop_after_attempt(settings.max_retries),
        wait=wait_exponential(multiplier=settings.min_wait, max=settings.max_wait),
        retry=retry_if_exception_type((RequestException, HTTPError)))`.
`retryStop` models tenacity's attempt control: re-invoke on a retryable
error until `stop_after_attempt` permits no further attempt, at which point
the last error is surfaced to the caller (tenacity wraps it in a
`RetryError`).  Wall-clock waiting between attempts is real-time behaviour
and is not modelled. -/

/-- Settings default `max_retries` (settings.py). -/
def settings_max_retries : Nat := 3

/-- Settings default `min_wait` in seconds (used as the backoff multiplier). -/
def settings_min_wait : Nat := 1

/-- Settings default `max_wait` in seconds (the backoff wait cap). -/
def settings_max_wait : Nat := 10

/-- Tenacity attempt loop: `remaining` attempts are still permitted, the
next call is attempt number `attempt`.  Returns the outcome together with
the number of the attempt on which it was produced. -/
def retryStop {E A : Type} (f : Nat → Except E A) :
    Nat → Nat → Except E A × Nat
  | 0, attempt => (f attempt, attempt)
  | 1, attempt => (f attempt, attempt)
  | n + 2, attempt =>
    match f attempt with
    | .ok a => (.ok a, attempt)
    | .error _ => retryStop f (n + 1) (attempt + 1)

/-- One `AmadeusClient` network operation under the decorator, with the
default settings (`max_retries = 3`). -/
def amadeus_api_call {E A : Type} (f : Nat → Except E A) : Except E A × Nat :=
  retryStop f settings_max_retries 1

/-! ## Telegram presentation and delivery (`telegram_sender.py`) -/

/-- One language's entry of the `TRANSLATIONS` dictionary. -/
structure TransTable where
  title : String
  travel_details : String
  from_label : String
  to_label : String
  dates : String
  flight_price : String
  flight : String
  book_flight : String
  recommended_hotel : String
  rating : String
  price : String
  book_hotel : String
  deriving Repr, DecidableEq

/-- `TRANSLATIONS['english']`. -/
def englishT : TransTable := {
  title := "Travel Ideas for Next Week"
  travel_details := "Travel Details:"
  from_label := "From:"
  to_label := "To:"
  dates := "Dates:"
  flight_price := "Flight Price:"
  flight := "Flight:"
  book_flight := "Book Flight"
  recommended_hotel := "Recommended Hotel:"
  rating := "Rating:"
  price := "Price:"
  book_hotel := "Book Hotel" }

/-- `TRANSLATIONS['spanish']`. -/
def spanishT : TransTable := {
  title := "Ideas de Viaje para la Próxima Semana"
  travel_details := "Detalles del Viaje:"
  from_label := "Desde:"
  to_label := "Hasta:"
  dates := "Fechas:"
  flight_price := "Precio del Vuelo:"
  flight := "Vuelo:"
  book_flight := "Reservar Vuelo"
  recommended_hotel := "Hotel Recomendado:"
  rating := "Valoración:"
  price := "Precio:"
  book_hotel := "Reservar Hotel" }

/-- `TRANSLATIONS['french']`. -/
def frenchT : TransTable := {
  title := "Idées de Voyage pour la Semaine Prochaine"
  travel_details := "Détails du Voyage:"
  from_label := "De:"
  to_label := "À:"
  dates := "Dates:"
  flight_price := "Prix du Vol:"
  flight := "Vol:"
  book_flight := "Réserver le Vol"
  recommended_hotel := "Hôtel Recommandé:"
  rating := "Note:"
  price := "Prix:"
  book_hotel := "Réserver l\x27Hôtel" }

/-- `TRANSLATIONS['german']`. -/
def germanT : TransTable := {
  title := "Reiseideen für die Nächste Woche"
  travel_details := "Reisedetails:"
  from_label := "Von:"
  to_label := "Nach:"
  dates := "Daten:"
  flight_price := "Flugpreis:"
  flight := "Flug:"
  book_flight := "Flug Buchen"
  recommended_hotel := "Empfohlenes Hotel:"
  rating := "Bewertung:"
  price := "Preis:"
  book_hotel := "Hotel Buchen" }

/-- `TRANSLATIONS['italian']`. -/
def italianT : TransTable := {
  title := "Idee di Viaggio per la Prossima Settimana"
  travel_details := "Dettagli del Viaggio:"
  from_label := "Da:"
  to_label := "A:"
  dates := "Date:"
  flight_price := "Prezzo del Volo:"
  flight := "Volo:"
  book_flight := "Prenota Volo"
  recommended_hotel := "Hotel Consigliato:"
  rating := "Valutazione:"
  price := "Prezzo:"
  book_hotel := "Prenota Hotel" }

/-- `TRANSLATIONS['russian']`. -/
def russianT : TransTable := {
  title := "Идеи Путешествий на Следующую Неделю"
  travel_details := "Детали Поездки:"
  from_label := "Откуда:"
  to_label := "Куда:"
  dates := "Даты:"
  flight_price := "Цена Билета:"
  flight := "Рейс:"
  book_flight := "Забронировать Билет"
  recommended_hotel := "Рекомендуемый Отель:"
  rating := "Рейтинг:"
  price := "Цена:"
  book_hotel := "Забронировать Отель" }

/-- The `TRANSLATIONS` dictionary as an association list (its six keys). -/
def TRANSLATIONS : List (String × TransTable) :=
  [("english", englishT), ("spanish", spanishT), ("french", frenchT),
   ("german", germanT), ("italian", italianT), ("russian", russianT)]

/-- Model of Python `str.lower()` (the dictionary keys are ASCII):
lower-case every character. -/
def pyLower (s : String) : String := ⟨s.data.map Char.toLower⟩

/-- A Python exception raised by the embedded code. -/
inductive PyExc where
  | attributeError
  deriving Repr, DecidableEq

/-- The dictionary lookup `TRANSLATIONS.get(lang_key, TRANSLATIONS['english'])`
performed on a string argument. -/
def get_translations_str (language : String) : TransTable :=
  ((TRANSLATIONS.find? (fun p => p.1 == pyLower language)).map
    (fun p => p.2)).getD englishT

/-- `telegram_sender.get_translations` (lines 104–115).  The parameter is
declared `language: str = None`; `language.lower()` on the default `None`
raises `AttributeError` (`NoneType` has no attribute `lower`). -/
def get_translations (language : Option String) : Except PyExc TransTable :=
  match language with
  | none => .error .attributeError
  | some s => .ok (get_translations_str s)

/-! ### AiAgent data model used by the formatter (ai_agent.py) -/

/-- `ai_agent.HotelInfo`. -/
structure HotelInfoE where
  name : String
  price : String
  rating : String
  address : String
  booking_link : String
  deriving Repr, DecidableEq

/-- `ai_agent.TravelSummary` (with the optional embedded hotel). -/
structure TravelSummaryA where
  flight_number : Option String
  flight_price : String
  starting_point : String
  destination : String
  travel_dates_str : String
  travel_start_date : String
  travel_end_date : String
  booking_link : String
  hotel : Option HotelInfoE
  deriving Repr, DecidableEq

/-- `ai_agent.TravelIdea` (`image_url` is attached dynamically by
`attach_city_images`). -/
structure TravelIdeaA where
  header : String
  motivation : String
  destination_description : String
  travel_summary : TravelSummaryA
  image_url : Option String
  deriving Repr, DecidableEq

/-- Python truthiness of a `str | None` value: `None` and `""` are falsy. -/
def pyTruthyStr : Option String → Bool
  | none => false
  | some s => !(s == "")

/-- The `parts` list built by `telegram_sender.format_idea_caption`
(lines 249–274).  `if summary.flight_number:` is string truthiness;
`if summary.hotel:` is object truthiness (`None` falsy, any model truthy). -/
def format_idea_caption_parts (idea : TravelIdeaA) (language : String) :
    List String :=
  let t := get_translations_str language
  let summary := idea.travel_summary
  ["<b>" ++ idea.header ++ "</b>",
   "<i>" ++ idea.motivation ++ "</i>",
   idea.destination_description,
   "<b>" ++ t.travel_details ++ "</b>",
   "📍 " ++ t.from_label ++ " " ++ summary.starting_point,
   "✈️ " ++ t.to_label ++ " " ++ summary.destination,
   "📅 " ++ t.dates ++ " " ++ summary.travel_dates_str,
   "💰 " ++ t.flight_price ++ " " ++ summary.flight_price]
  ++ (if pyTruthyStr summary.flight_number then
        ["🔢 " ++ t.flight ++ " " ++ summary.flight_number.getD ""]
      else [])
  ++ ["🔗 <a href=\x27" ++ summary.booking_link ++ "\x27>" ++ t.book_flight ++ "</a>"]
  ++ (match summary.hotel with
      | some h =>
        ["<b>🏨 " ++ t.recommended_hotel ++ "</b>",
         "📌 " ++ h.name,
         "⭐️ " ++ t.rating ++ " " ++ h.rating,
         "💰 " ++ t.price ++ " " ++ h.price]
      | none => [])

/-- `telegram_sender.format_idea_caption`: `"\n".join(parts)`. -/
def format_idea_caption (idea : TravelIdeaA) (language : String) : String :=
  String.intercalate "\n" (format_idea_caption_parts idea language)

/-- Substring occurrence test (Python `needle in haystack`), used to state
that a rendered caption contains no hotel wording at all. -/
def containsSub (needle : List Char) : List Char → Bool
  | [] => needle.isPrefixOf []
  | c :: rest => needle.isPrefixOf (c :: rest) || containsSub needle rest

/-! ### Delivery (`telegram_sender.send_to_telegram`, lines 200–246) -/

/-- One observable delivery action for one idea message. -/
inductive SendAction where
  | photoSent (url caption : String)
  | photoFailed (url caption : String)
  | textSent (caption : String)
  | textFailed (caption : String)
  deriving Repr, DecidableEq

/-- The body of the `for photo_url, caption in idea_messages` loop.
`if photo_url:` is string truthiness; the inner `try/except` logs a failed
send and `continue`s, so a failure produces a `Failed` action and the loop
moves on — there is no text fallback after a failed photo send. -/
def sendStep (photoOk : String → String → Bool) (msgOk : String → Bool)
    (m : Option String × String) : SendAction :=
  if pyTruthyStr m.1 then
    let url := m.1.getD ""
    if photoOk url m.2 then .photoSent url m.2 else .photoFailed url m.2
  else
    if msgOk m.2 then .textSent m.2 else .textFailed m.2

/-- `telegram_sender.send_to_telegram`.  `photoOk`/`msgOk` model whether the
Telegram API accepts a given `bot.send_photo` / `bot.send_message` call.
`if not bot_token or not channel_id:` raises
`ValueError("Telegram bot token and channel ID must be configured")`. -/
def send_to_telegram (bot_token channel_id : String)
    (photoOk : String → String → Bool) (msgOk : String → Bool)
    (idea_messages : List (Option String × String)) :
    Except String (List SendAction) :=
  if bot_token = "" ∨ channel_id = "" then
    .error "Telegram bot token and channel ID must be configured"
  else
    .ok (idea_messages.map (sendStep photoOk msgOk))

/-! ## Concrete inputs used by witnesses and counterexamples -/

/-- A trimmed, fence-free JSON document, as a valid LLM output. -/
def jsonSample : List Char := "\x7b\"ideas\": []\x7d".data

/-- A concrete hotel offer. -/
def hotelFix : HotelSummaryE := {
  hotel_name := "Hotel du Centre"
  address := "1 Rue de Rivoli, Paris"
  rating := some "4"
  total_price := "700 EUR"
  check_in_date := "2025-06-01"
  check_out_date := "2025-06-08"
  booking_link := "https://example.com/h" }

/-- A flight idea to Paris (destination code `PAR`). -/
def ideaAFix : TravelIdeaE := {
  header := "Paris in bloom"
  motivation := "Spring museums"
  destination_description := "The French capital."
  travel_summary := {
    flight_number := some "AF1001"
    flight_price := "90 EUR"
    starting_point := "Madrid"
    starting_point_code := "MAD"
    destination := "Paris"
    destination_code := "PAR"
    travel_dates := "2025-06-01 to 2025-06-08"
    travel_start_date := "2025-06-01"
    travel_end_date := "2025-06-08"
    booking_link := "https://example.com/a" }
  image_url := none }

/-- A second flight idea with the same destination code `PAR` but different
travel dates (hence a different hotel prompt). -/
def ideaBFix : TravelIdeaE := {
  header := "Paris again"
  motivation := "A second look"
  destination_description := "Same city, later dates."
  travel_summary := {
    flight_number := none
    flight_price := "95 EUR"
    starting_point := "Madrid"
    starting_point_code := "MAD"
    destination := "Paris"
    destination_code := "PAR"
    travel_dates := "2025-07-01 to 2025-07-08"
    travel_start_date := "2025-07-01"
    travel_end_date := "2025-07-08"
    booking_link := "https://example.com/b" }
  image_url := none }

/-- A flight idea to Lisbon (destination code `LIS`), distinct from `PAR`. -/
def ideaCFix : TravelIdeaE := {
  header := "Lisbon light"
  motivation := "Ocean air"
  destination_description := "The Portuguese capital."
  travel_summary := {
    flight_number := none
    flight_price := "80 EUR"
    starting_point := "Madrid"
    starting_point_code := "MAD"
    destination := "Lisbon"
    destination_code := "LIS"
    travel_dates := "2025-06-01 to 2025-06-08"
    travel_start_date := "2025-06-01"
    travel_end_date := "2025-06-08"
    booking_link := "https://example.com/c" }
  image_url := none }

/-- A Hotel Agent oracle that succeeds for `ideaAFix`'s prompt and raises
for every other prompt. -/
def agentDup : String → Except String HotelSearchResultE := fun p =>
  if p = hotelPrompt ideaAFix then
    .ok { city_name := "Paris", city_code := "PAR", hotels := [hotelFix] }
  else .error "LLM call failed"

/-- A Hotel Agent oracle that raises on every prompt. -/
def agentFail : String → Except String HotelSearchResultE :=
  fun _ => .error "boom"

/-- A concrete Amadeus `ResponseError`. -/
def respErrFix : ResponseErrorE := { status := 500, body := "Internal error" }

/-- A raw hotel record with one priced offer. -/
def rawHotelFix : RawHotelE := {
  hotel_name := some "Hotel Mar"
  offers := [{ price := some { total := some "350.00", currency := some "EUR" }
               checkInDate := some "2025-06-01"
               checkOutDate := some "2025-06-08" }] }

/-- An idea message whose image URL is a `.pdf` link, not an image file. -/
def pdfMsg : Option String × String :=
  (some "https://example.com/brochure.pdf", "Weekend in Porto")

/-- An AiAgent-schema travel idea carrying no hotel.  Its free-text fields
avoid the letter sequence `otel`, so any hotel wording in its caption could
only come from the formatter itself. -/
def ideaNoHotelFix : TravelIdeaA := {
  header := "Weekend in Porto"
  motivation := "Cheap spring flights"
  destination_description := "A riverside city."
  travel_summary := {
    flight_number := some "FR1234"
    flight_price := "120 EUR"
    starting_point := "Madrid"
    destination := "Porto"
    travel_dates_str := "2025-06-01 to 2025-06-08"
    travel_start_date := "2025-06-01"
    travel_end_date := "2025-06-08"
    booking_link := "https://example.com/f"
    hotel := none }
  image_url := none }

/-! ## Helper lemmas -/

/-- Both branches of the hotel-node loop body record the idea's own
destination code. -/
theorem hotelNodeStep_dest (agentRun : String → Except String HotelSearchResultE)
    (idea : TravelIdeaE) :
    (hotelNodeStep agentRun idea).destination_code =
      idea.travel_summary.destination_code := by
  cases h : agentRun (hotelPrompt idea) <;> simp [hotelNodeStep, h]

/-- The merge's `next(...)` lookup agrees with the recursive first-match
description. -/
theorem firstMatchHotels_eq_find (offers : List HotelOfferRec) (d : String) :
    ((offers.find? (fun h => h.destination_code == d)).map
      (fun h => h.hotels)).getD [] = firstMatchHotels offers d := by
  induction offers with
  | nil => rfl
  | cons h t ih =>
    by_cases hd : h.destination_code = d
    · simp [firstMatchHotels, hd]
    · simp [firstMatchHotels, hd, ih]

/-- Under pairwise-distinct destination codes, the merge lookup for an idea
finds that idea's own hotel record. -/
theorem find_hotel_node_nodup (agentRun : String → Except String HotelSearchResultE)
    (idea : TravelIdeaE) :
    ∀ ideas : List TravelIdeaE,
      (ideas.map (fun x => x.travel_summary.destination_code)).Nodup →
      ∀ i : Nat, ideas[i]? = some idea →
      (hotel_agent_node agentRun ideas).find?
          (fun h => h.destination_code == idea.travel_summary.destination_code) =
        some (hotelNodeStep agentRun idea) := by
  intro ideas
  induction ideas with
  | nil => intro _ i h; simp at h
  | cons a t ih =>
    intro hnd i hget
    rw [List.map_cons, List.nodup_cons] at hnd
    cases i with
    | zero =>
      have ha : a = idea := by simpa using hget
      subst ha
      show List.find? _ (hotelNodeStep agentRun a :: t.map (hotelNodeStep agentRun)) = _
      rw [List.find?_cons_of_pos]
      simp [hotelNodeStep_dest]
    | succ n =>
      have hget' : t[n]? = some idea := by simpa using hget
      have hmem : idea ∈ t := List.getElem?_mem hget'
      have hne : a.travel_summary.destination_code ≠
          idea.travel_summary.destination_code := by
        intro hcontra
        exact hnd.1 (hcontra ▸ List.mem_map_of_mem _ hmem)
      show List.find? _ (hotelNodeStep agentRun a :: t.map (hotelNodeStep agentRun)) = _
      rw [List.find?_cons_of_neg]
      · exact ih hnd.2 n hget'
      · simp [hotelNodeStep_dest, hne]

/-! ## Claim theorems -/

/-- C1: for every list of ideas returned by the Flight Agent and every
hotel-offer list, the merged output of `merge_output_node` has exactly one
`CombinedSuggestion` per idea, in the flight ideas' order, each pairing the
idea with the hotels of the first hotel-offer record whose
`destination_code` matches the idea's `destination_code` (empty when no
record matches). -/
theorem C1_merge_preserves_ideas (ideas : List TravelIdeaE)
    (offers : List HotelOfferRec) :
    (merge_output_node ideas offers).length = ideas.length ∧
    ∀ i : Nat, (merge_output_node ideas offers)[i]? =
      (ideas[i]?).map (fun idea =>
        { travel_idea := idea
          hotels := firstMatchHotels offers idea.travel_summary.destination_code }) := by
  constructor
  · simp [merge_output_node]
  · intro i
    cases h : ideas[i]? <;>
      simp [merge_output_node, h, firstMatchHotels_eq_find]

/-- C9: after the hotel stage, `hotel_offers` has exactly one record per
flight idea, in the same order, each carrying the corresponding idea's
`destination_code` (also for ideas whose lookup failed), so the merge's
first-match lookup finds a record for every idea. -/
theorem C9_hotel_offers_aligned (agentRun : String → Except String HotelSearchResultE)
    (ideas : List TravelIdeaE) :
    (hotel_agent_node agentRun ideas).length = ideas.length ∧
    (∀ i : Nat,
      ((hotel_agent_node agentRun ideas)[i]?).map (fun r => r.destination_code) =
        (ideas[i]?).map (fun idea => idea.travel_summary.destination_code)) ∧
    (ideas.all (fun idea =>
      ((hotel_agent_node agentRun ideas).find?
        (fun h => h.destination_code == idea.travel_summary.destination_code)).isSome) = true) := by
  refine ⟨by simp [hotel_agent_node], ?_, ?_⟩
  · intro i
    cases h : ideas[i]? <;> simp [hotel_agent_node, h, hotelNodeStep_dest]
  · rw [List.all_eq_true]
    intro idea hmem
    simp only [List.find?_isSome]
    exact ⟨hotelNodeStep agentRun idea,
      List.mem_map_of_mem _ hmem, by simp [hotelNodeStep_dest]⟩

/-- C2 counterexample: two flight ideas share destination code `PAR`; the
Hotel Agent succeeds for the first (one hotel) and raises for the second.
The second idea's `CombinedSuggestion` then carries the FIRST record's
non-empty hotel list — not the empty list the claim requires. -/
theorem C2_counterexample :
    agentDup (hotelPrompt ideaBFix) = .error "LLM call failed" ∧
    (merge_output_node [ideaAFix, ideaBFix]
        (hotel_agent_node agentDup [ideaAFix, ideaBFix]))[1]? =
      some { travel_idea := ideaBFix, hotels := [hotelFix] } ∧
    [hotelFix] ≠ ([] : List HotelSummaryE) := by
  refine ⟨rfl, rfl, by simp⟩

/-- C2 (amended): if the Hotel Agent invocation for an idea raises, the
hotel stage records an empty hotel list for that destination, continues
(no exception escapes: `hotel_agent_node` is total and yields a record per
idea), and — provided the flight ideas' destination codes are pairwise
distinct — that idea's `CombinedSuggestion` carries an empty hotel list. -/
theorem C2_hotel_failure_isolated (agentRun : String → Except String HotelSearchResultE)
    (ideas : List TravelIdeaE)
    (hnd : (ideas.map (fun x => x.travel_summary.destination_code)).Nodup)
    (i : Nat) (idea : TravelIdeaE) (hget : ideas[i]? = some idea)
    (err : String) (herr : agentRun (hotelPrompt idea) = .error err) :
    (hotel_agent_node agentRun ideas)[i]? =
      some { destination_code := idea.travel_summary.destination_code, hotels := [] } ∧
    (merge_output_node ideas (hotel_agent_node agentRun ideas))[i]? =
      some { travel_idea := idea, hotels := [] } := by
  have hstep : hotelNodeStep agentRun idea =
      { destination_code := idea.travel_summary.destination_code, hotels := [] } := by
    simp [hotelNodeStep, herr]
  constructor
  · simp [hotel_agent_node, hget, hstep]
  · have hfind := find_hotel_node_nodup agentRun idea ideas hnd i hget
    simp [merge_output_node, hget, hfind, hstep]

/-- C2 witness: with distinct destination codes `PAR`, `LIS` and an agent
that raises on every prompt, the `LIS` idea's record and merged suggestion
both carry an empty hotel list. -/
theorem C2_hotel_failure_isolated_witness :
    (hotel_agent_node agentFail [ideaAFix, ideaCFix])[1]? =
      some { destination_code := ideaCFix.travel_summary.destination_code,
             hotels := [] } ∧
    (merge_output_node [ideaAFix, ideaCFix]
        (hotel_agent_node agentFail [ideaAFix, ideaCFix]))[1]? =
      some { travel_idea := ideaCFix, hotels := [] } :=
  C2_hotel_failure_isolated agentFail [ideaAFix, ideaCFix] (by decide) 1 ideaCFix
    rfl "boom" rfl

/-- C4 counterexample: with a provider that fails every attempt with an
Amadeus `ResponseError`, the Hotel Agent's `_search_hotel_offers` makes
exactly one provider attempt — not the claimed 3 — and returns the `None`
sentinel instead of surfacing an error to the caller. -/
theorem C4_counterexample :
    HotelAgent_search_hotel_offers
        (fun _ => (Except.error respErrFix : Except ResponseErrorE (List RawHotelE))) =
      (none, 1) ∧
    (1 : Nat) ≠ settings_max_retries :=
  ⟨rfl, by decide⟩

/-- C4 (amended): the generic `AmadeusClient` operations are retried under
tenacity's `stop_after_attempt(settings.max_retries)` with the default of 3
attempts — an always-failing call surfaces its error after exactly 3
attempts, a call failing twice succeeds on the third attempt, a successful
call is not retried — but the agents' own provider tools are NOT retried:
`HotelAgent._search_hotel_offers` returns the `None` sentinel after a
single failed attempt (its retry loop returns in both branches of the
first iteration and never sleeps).  Backoff wait times are wall-clock
behaviour and are not modelled. -/
theorem C4_retry_policy (E A : Type) (e : E) (a : A) (e2 : ResponseErrorE) :
    amadeus_api_call (fun _ => (Except.error e : Except E A)) = (Except.error e, 3) ∧
    amadeus_api_call
        (fun n => if n < 3 then (Except.error e : Except E A) else Except.ok a) =
      (Except.ok a, 3) ∧
    amadeus_api_call (fun _ => (Except.ok a : Except E A)) = (Except.ok a, 1) ∧
    HotelAgent_search_hotel_offers
        (fun _ => (Except.error e2 : Except ResponseErrorE A)) = (none, 1) :=
  ⟨rfl, rfl, rfl, rfl⟩

/-- C5: if the live flight-inspiration call fails with a `ResponseError`,
`_search_flight_inspiration` returns exactly the records under the sample
fixture's `"data"` key (so a fixture with N records yields exactly those N
records), and if the fixture cannot be loaded it raises
`RuntimeError("Flight search failed and sample data could not be loaded.")`,
failing the run. -/
theorem C5_sample_fallback (α : Type) (err : ResponseErrorE)
    (records : List α) (loadErr : String) :
    search_flight_inspiration (Except.error err)
        (Except.ok { data := some records }) = Except.ok records ∧
    search_flight_inspiration (Except.error err)
        (Except.error loadErr : Except String (InspirationSampleE α)) =
      Except.error "Flight search failed and sample data could not be loaded." :=
  ⟨rfl, rfl⟩

/-- C6 counterexample: the Hotel Agent's hotel-search tool
(`HotelAgent._search_hotel_offers`) returns the provider's raw offer
records unsummarized and uncapped: a provider response with 4 records is
returned whole, exceeding the claimed cap of 3. -/
theorem C6_counterexample :
    (HotelAgent_search_hotel_offers
        (fun _ => (Except.ok [rawHotelFix, rawHotelFix, rawHotelFix, rawHotelFix] :
          Except ResponseErrorE (List RawHotelE)))).1 =
      some [rawHotelFix, rawHotelFix, rawHotelFix, rawHotelFix] ∧
    [rawHotelFix, rawHotelFix, rawHotelFix, rawHotelFix].length > 3 :=
  ⟨rfl, by decide⟩

/-- C6 (amended): it is the `AiAgent` variant's hotel tool
(`AiAgent._search_hotel_offers`) that returns at most 3 summarized offers
(name, price, currency, check-in/out — the `OfferSummaryE` fields) or the
`None` sentinel when either provider call errors; the orchestration-design
`HotelAgent`'s tool also traps provider errors into the `None` sentinel,
but passes provider data through raw and uncapped. -/
theorem C6_hotel_tool_summary :
    (∀ (byCity : Except ResponseErrorE (List String))
       (offersSearch : List String → Except ResponseErrorE (List RawHotelE)),
      ((AiAgent_search_hotel_offers byCity offersSearch).getD []).length ≤ 3) ∧
    (∀ (e : ResponseErrorE)
       (offersSearch : List String → Except ResponseErrorE (List RawHotelE)),
      AiAgent_search_hotel_offers (Except.error e) offersSearch = none) ∧
    (∀ (ids : List String) (e : ResponseErrorE),
      AiAgent_search_hotel_offers (Except.ok ids) (fun _ => Except.error e) = none) ∧
    (∀ e : ResponseErrorE,
      HotelAgent_search_hotel_offers
          (fun _ => (Except.error e : Except ResponseErrorE (List RawHotelE))) =
        (none, 1)) := by
  refine ⟨?_, fun e o => rfl, fun ids e => rfl, fun e => rfl⟩
  intro byCity offersSearch
  cases byCity with
  | error e => simp [AiAgent_search_hotel_offers]
  | ok hotels =>
    cases ho : offersSearch (hotels.take 20) with
    | error e => simp [AiAgent_search_hotel_offers, ho]
    | ok data =>
      simp only [AiAgent_search_hotel_offers, ho]
      by_cases hemp : ((data.take 3).filterMap summarizeHotel).isEmpty
      · simp [hemp]
      · simp only [hemp, if_false, Bool.false_eq_true, Option.getD_some]
        calc ((data.take 3).filterMap summarizeHotel).length
            ≤ (data.take 3).length := List.length_filterMap_le _ _
          _ ≤ 3 := by simp [List.length_take]

/-- C7 counterexample: an idea whose image URL ends in `.pdf` IS attempted
as a photo (`send_photo` is invoked with the `.pdf` URL — there is no
file-type check), and when the provider rejects it the idea is skipped
(`continue`) with no plain-text fallback: the delivery trace holds one
failed photo action and no text action at all. -/
theorem C7_counterexample :
    send_to_telegram "token" "channel" (fun _ _ => false) (fun _ => true) [pdfMsg] =
      Except.ok [SendAction.photoFailed "https://example.com/brochure.pdf"
        "Weekend in Porto"] ∧
    send_to_telegram "token" "channel" (fun _ _ => true) (fun _ => true) [pdfMsg] =
      Except.ok [SendAction.photoSent "https://example.com/brochure.pdf"
        "Weekend in Porto"] := by
  constructor <;> simp [send_to_telegram, sendStep, pdfMsg, pyTruthyStr]

/-- C7 (amended): delivery processes every idea message (a failed send is
logged and skipped, so the trace keeps one action per message), and for
every idea carrying a non-empty image URL — of any file type — the action
is a photo attempt, sent or failed as the provider decides; a rejected
photo produces no text fallback for that idea. -/
theorem C7_photo_delivery (photoOk : String → String → Bool)
    (msgOk : String → Bool) (tok chan : String)
    (htok : ¬ tok = "") (hchan : ¬ chan = "")
    (msgs : List (Option String × String)) :
    (send_to_telegram tok chan photoOk msgOk msgs).map List.length =
      Except.ok msgs.length ∧
    ∀ (i : Nat) (url cap : String), msgs[i]? = some (some url, cap) → ¬ url = "" →
      (send_to_telegram tok chan photoOk msgOk msgs).map (fun tr => tr[i]?) =
        Except.ok (some (if photoOk url cap then SendAction.photoSent url cap
                         else SendAction.photoFailed url cap)) := by
  have hguard : ¬ (tok = "" ∨ chan = "") := fun h => h.elim htok hchan
  constructor
  · simp [send_to_telegram, hguard, Except.map]
  · intro i url cap hget hurl
    cases hpo : photoOk url cap <;>
      simp [send_to_telegram, hguard, hget, sendStep, pyTruthyStr, hurl, hpo,
        Except.map]

/-- C7 witness: the amended theorem at the `.pdf` message with a rejecting
provider — the recorded action is a failed photo attempt. -/
theorem C7_photo_delivery_witness :
    (send_to_telegram "token" "channel" (fun _ _ => false) (fun _ => true)
        [pdfMsg]).map (fun tr => tr[0]?) =
      Except.ok (some (SendAction.photoFailed "https://example.com/brochure.pdf"
        "Weekend in Porto")) := by
  have h := (C7_photo_delivery (fun _ _ => false) (fun _ => true) "token" "channel"
    (by decide) (by decide) [pdfMsg]).2 0 "https://example.com/brochure.pdf"
    "Weekend in Porto" rfl (by decide)
  simpa using h

set_option maxRecDepth 10000 in
/-- C8 counterexample: the caption rendered for a hotel-less idea (English)
is exactly the flight-only text below; it contains no "no hotel offers"
notice (no translation table even has such an entry) — the character
sequence `otel` never occurs in it, so no hotel wording of any kind is
present. -/
theorem C8_counterexample :
    format_idea_caption ideaNoHotelFix "english" =
      "<b>Weekend in Porto</b>\n<i>Cheap spring flights</i>\nA riverside city.\n<b>Travel Details:</b>\n📍 From: Madrid\n✈️ To: Porto\n📅 Dates: 2025-06-01 to 2025-06-08\n💰 Flight Price: 120 EUR\n🔢 Flight: FR1234\n🔗 <a href=\x27https://example.com/f\x27>Book Flight</a>" ∧
    containsSub "otel".data (format_idea_caption ideaNoHotelFix "english").data =
      false := by
  exact ⟨rfl, by decide⟩

/-- C8 (amended): a `CombinedSuggestion`/idea without an attached hotel
renders a caption that simply omits the hotel section and appends no
notice: the caption has exactly the 9 flight lines (10 with a truthy
flight number), and exactly 4 more when a hotel is attached. -/
theorem C8_caption_no_hotel_section (idea : TravelIdeaA) (language : String) :
    (format_idea_caption_parts idea language).length =
      (if pyTruthyStr idea.travel_summary.flight_number then 10 else 9) +
      (if idea.travel_summary.hotel.isSome then 4 else 0) := by
  cases hf : pyTruthyStr idea.travel_summary.flight_number <;>
    cases hh : idea.travel_summary.hotel <;>
      simp [format_idea_caption_parts, hf, hh]

/-- C10: `get_translations` returns a translation table for every non-None
string argument — the English table whenever the lowercased language name
is not one of the six supported keys — but the declared default
`language=None` raises `AttributeError` (`None.lower()`) instead of
returning the default-language table. -/
theorem C10_get_translations :
    (∀ s : String, get_translations (some s) = Except.ok (get_translations_str s)) ∧
    (∀ s : String,
      pyLower s ∉ ["english", "spanish", "french", "german", "italian", "russian"] →
      get_translations (some s) = Except.ok englishT) ∧
    get_translations none = Except.error PyExc.attributeError := by
  refine ⟨fun s => rfl, ?_, rfl⟩
  intro s hs
  simp at hs
  obtain ⟨h1, h2, h3, h4, h5, h6⟩ := hs
  have e1 : ("english" == pyLower s) = false := by simp [Ne.symm h1]
  have e2 : ("spanish" == pyLower s) = false := by simp [Ne.symm h2]
  have e3 : ("french" == pyLower s) = false := by simp [Ne.symm h3]
  have e4 : ("german" == pyLower s) = false := by simp [Ne.symm h4]
  have e5 : ("italian" == pyLower s) = false := by simp [Ne.symm h5]
  have e6 : ("russian" == pyLower s) = false := by simp [Ne.symm h6]
  simp [get_translations, get_translations_str, TRANSLATIONS, List.find?,
    e1, e2, e3, e4, e5, e6]

/-- C10 witness: an unsupported language name yields the English table. -/
theorem C10_get_translations_witness :
    get_translations (some "Klingon") = Except.ok englishT :=
  C10_get_translations.2.1 "Klingon"
    (by rw [show pyLower "Klingon" = "klingon" from rfl]; simp)

/-! ### Lemmas on Python string stripping, for C3 -/

/-- Trailing-trim keeps a list ending in a non-whitespace character. -/
theorem dropTrail_concat (l : List Char) (c : Char) (hc : pyWs c = false) :
    dropTrail (l ++ [c]) = l ++ [c] := by
  simp [dropTrail, List.dropWhile_cons, hc]

/-- Trailing-trim absorbs a final newline. -/
theorem dropTrail_append_nl (l : List Char) :
    dropTrail (l ++ ['\n']) = dropTrail l := by
  have h : pyWs '\n' = true := by decide
  simp [dropTrail, List.dropWhile_cons, h]

/-- `strip` absorbs a leading newline. -/
theorem pyStrip_cons_nl (l : List Char) : pyStrip ('\n' :: l) = pyStrip l := by
  have h : pyWs '\n' = true := by decide
  simp [pyStrip, List.dropWhile_cons, h]

/-- `strip` absorbs a trailing newline. -/
theorem pyStrip_append_nl (l : List Char) : pyStrip (l ++ ['\n']) = pyStrip l := by
  induction l with
  | nil => decide
  | cons a t ih =>
    cases ha : pyWs a with
    | true => simpa [pyStrip, List.dropWhile_cons, ha] using ih
    | false =>
      show pyStrip (a :: (t ++ ['\n'])) = pyStrip (a :: t)
      simp only [pyStrip, List.dropWhile_cons, ha, Bool.false_eq_true, if_false]
      rw [show a :: (t ++ ['\n']) = (a :: t) ++ ['\n'] from rfl, dropTrail_append_nl]

/-- `strip` keeps a list that starts and ends with non-whitespace. -/
theorem pyStrip_sandwich (c d : Char) (mid : List Char)
    (hc : pyWs c = false) (hd : pyWs d = false) :
    pyStrip (c :: (mid ++ [d])) = c :: (mid ++ [d]) := by
  simp only [pyStrip, List.dropWhile_cons, hc, Bool.false_eq_true, if_false]
  rw [show c :: (mid ++ [d]) = (c :: mid) ++ [d] from rfl, dropTrail_concat _ _ hd]

/-- The json-fenced wrapper, with its backtick ends made explicit. -/
theorem wrapJson_shape (s : List Char) :
    wrapJson s =
      Char.ofNat 96 ::
        (("``json\n".data ++ (s ++ ('\n' :: "``".data))) ++ [Char.ofNat 96]) := by
  have h1 : wrapJson s =
      Char.ofNat 96 ::
        ("``json\n".data ++ (s ++ (('\n' :: "``".data) ++ [Char.ofNat 96]))) := rfl
  rw [h1]
  simp [List.append_assoc]

/-- The plain-fenced wrapper, with its backtick ends made explicit. -/
theorem wrapPlain_shape (s : List Char) :
    wrapPlain s =
      Char.ofNat 96 ::
        (("``\n".data ++ (s ++ ('\n' :: "``".data))) ++ [Char.ofNat 96]) := by
  have h1 : wrapPlain s =
      Char.ofNat 96 ::
        ("``\n".data ++ (s ++ (('\n' :: "``".data) ++ [Char.ofNat 96]))) := rfl
  rw [h1]
  simp [List.append_assoc]

/-- The json-fenced wrapper starts with the `"```json"` marker. -/
theorem fenceJson_pre_wrapJson (s : List Char) :
    fenceJson.isPrefixOf (wrapJson s) = true := by
  have h : wrapJson s = fenceJson ++ ('\n' :: (s ++ "\n```".data)) := rfl
  rw [h]; simp

/-- The plain-fenced wrapper starts with the `"```"` marker. -/
theorem fence3_pre_wrapPlain (s : List Char) :
    fence3.isPrefixOf (wrapPlain s) = true := by
  have h : wrapPlain s = fence3 ++ ('\n' :: (s ++ "\n```".data)) := rfl
  rw [h]; simp

/-- The plain-fenced wrapper does not start with `"```json"` (its fourth
character is the newline, not `j`). -/
theorem fenceJson_not_pre_wrapPlain (s : List Char) :
    fenceJson.isPrefixOf (wrapPlain s) = false := by
  have hf : fenceJson =
      Char.ofNat 96 :: Char.ofNat 96 :: Char.ofNat 96 :: 'j' :: "son".data := rfl
  have hp : wrapPlain s =
      Char.ofNat 96 :: Char.ofNat 96 :: Char.ofNat 96 :: '\n' :: (s ++ "\n```".data) :=
    rfl
  have hjn : (('j' : Char) == '\n') = false := by decide
  have hcc : ((Char.ofNat 96 : Char) == Char.ofNat 96) = true := by decide
  rw [hf, hp]
  simp [List.isPrefixOf, hjn, hcc]

/-- `removeprefix("```json")` on the json-fenced wrapper. -/
theorem dropPre_fenceJson_wrapJson (s : List Char) :
    dropPre fenceJson (wrapJson s) = '\n' :: (s ++ "\n```".data) := by
  have h : wrapJson s = fenceJson ++ ('\n' :: (s ++ "\n```".data)) := rfl
  simp only [dropPre, fenceJson_pre_wrapJson s, if_true]
  rw [h]
  exact List.drop_left' (by rfl)

/-- `removeprefix("```")` on the plain-fenced wrapper. -/
theorem dropPre_fence3_wrapPlain (s : List Char) :
    dropPre fence3 (wrapPlain s) = '\n' :: (s ++ "\n```".data) := by
  have h : wrapPlain s = fence3 ++ ('\n' :: (s ++ "\n```".data)) := rfl
  simp only [dropPre, fence3_pre_wrapPlain s, if_true]
  rw [h]
  exact List.drop_left' (by rfl)

/-- `removesuffix` drops exactly an actual suffix. -/
theorem dropSuf_append (y suf : List Char) : dropSuf (y ++ suf) suf = y := by
  have h1 : (y ++ suf).reverse = suf.reverse ++ y.reverse := by simp
  have h2 : suf.reverse.isPrefixOf (suf.reverse ++ y.reverse) = true := by simp
  simp only [dropSuf, dropPre, h1, h2, if_true]
  rw [List.drop_left' (by rfl)]
  simp

/-- Stripping the json-fenced wrapper of a trimmed payload recovers the
payload. -/
theorem stripFence_wrapJson (s : List Char) (hs : pyStrip s = s) :
    stripFence (wrapJson s) = s := by
  have h1 : pyStrip (wrapJson s) = wrapJson s := by
    rw [wrapJson_shape]
    exact pyStrip_sandwich _ _ _ (by decide) (by decide)
  have hx : '\n' :: (s ++ "\n```".data) = ('\n' :: (s ++ ['\n'])) ++ fence3 := by
    rw [show ("\n```".data : List Char) = ['\n'] ++ fence3 from rfl]
    simp
  have hsel : stripFence (wrapJson s) =
      pyStrip (dropSuf (dropPre fenceJson (wrapJson s)) fence3) := by
    simp [stripFence, h1, fenceJson_pre_wrapJson s]
  rw [hsel, dropPre_fenceJson_wrapJson, hx, dropSuf_append, pyStrip_cons_nl,
    pyStrip_append_nl, hs]

/-- Stripping the plain-fenced wrapper of a trimmed payload recovers the
payload. -/
theorem stripFence_wrapPlain (s : List Char) (hs : pyStrip s = s) :
    stripFence (wrapPlain s) = s := by
  have h1 : pyStrip (wrapPlain s) = wrapPlain s := by
    rw [wrapPlain_shape]
    exact pyStrip_sandwich _ _ _ (by decide) (by decide)
  have hx : '\n' :: (s ++ "\n```".data) = ('\n' :: (s ++ ['\n'])) ++ fence3 := by
    rw [show ("\n```".data : List Char) = ['\n'] ++ fence3 from rfl]
    simp
  have hsel : stripFence (wrapPlain s) =
      pyStrip (dropSuf (dropPre fence3 (wrapPlain s)) fence3) := by
    simp [stripFence, h1, fenceJson_not_pre_wrapPlain s, fence3_pre_wrapPlain s]
  rw [hsel, dropPre_fence3_wrapPlain, hx, dropSuf_append, pyStrip_cons_nl,
    pyStrip_append_nl, hs]

/-- Stripping is the identity on a trimmed, fence-free string. -/
theorem stripFence_id (s : List Char) (hs : pyStrip s = s)
    (hnf : fence3.isPrefixOf s = false) : stripFence s = s := by
  have hjf : fenceJson.isPrefixOf s = false := by
    cases hj : fenceJson.isPrefixOf s with
    | false => rfl
    | true =>
      exfalso
      have hpre : fenceJson <+: s := List.isPrefixOf_iff_prefix.mp hj
      have h3 : fence3 <+: fenceJson := ⟨"json".data, rfl⟩
      have hsp : fence3.isPrefixOf s = true :=
        List.isPrefixOf_iff_prefix.mpr (h3.trans hpre)
      rw [hnf] at hsp
      exact absurd hsp (by decide)
  simp [stripFence, hs, hjf, hnf]

/-- C3: for every valid LLM output `s` — trimmed and (being a JSON
document) not starting with a backtick fence — parsing the output wrapped
in a Markdown JSON code fence, of either the ```` ```json ```` or the
plain ` ``` ` variant, strips to exactly the unwrapped string (hence JSON
validation sees the identical input and yields the same structured
result), and the stripping step applied to the already-stripped string
leaves it unchanged. -/
theorem C3_fence_strip_roundtrip (s : List Char) (hs : pyStrip s = s)
    (hnf : fence3.isPrefixOf s = false) :
    stripFence (wrapJson s) = stripFence s ∧
    stripFence (wrapPlain s) = stripFence s ∧
    stripFence s = s := by
  have hid := stripFence_id s hs hnf
  exact ⟨by rw [stripFence_wrapJson s hs, hid], by
    rw [stripFence_wrapPlain s hs, hid], hid⟩

/-- C3 witness: the roundtrip at a concrete JSON document. -/
theorem C3_fence_strip_roundtrip_witness :
    stripFence (wrapJson jsonSample) = stripFence jsonSample ∧
    stripFence (wrapPlain jsonSample) = stripFence jsonSample ∧
    stripFence jsonSample = jsonSample :=
  C3_fence_strip_roundtrip jsonSample (by decide) (by decide)

end EvBot
